import Mathlib

/-!
# GameScores deployment: configuration and deploy script

A shallow embedding of the two source files of the repository:

* `hardhat.config.js` — the exported configuration object (`networks`,
  `etherscan`, `sourcify`), as a function of the process environment;
* `scripts/deploy.js` — `main` and the trailing `.then/.catch` that maps the
  outcome of `main` to a process exit code.

The external collaborators of the script (`hre.ethers.getSigners`,
`hre.ethers.getContractFactory`, `factory.deploy`, `contract.waitForDeployment`,
`contract.getAddress`) are parameters: each is an arbitrary function of an
abstract world state that either returns a value or throws, and leaves a new
world state behind.
-/

namespace GameScores

/-! ## hardhat.config.js -/

/-- The object `process.env` (after `dotenv` has populated it): every variable
name is either unset (`none`, JavaScript `undefined`) or bound to a string. -/
abbrev ProcessEnv := String → Option String

/-- JavaScript truthiness of an environment value: `undefined` and the empty
string are falsy, every other string is truthy. -/
def truthy : Option String → Bool
  | none => false
  | some s => s != ""

/-- One entry of `networks`. An element of `accounts` is a JavaScript value that
is a string or `undefined` (`none`). -/
structure NetworkUserConfig where
  url : String
  chainId : Nat
  accounts : List (Option String)
  deriving DecidableEq, Repr

/-- The `urls` object of a custom chain. -/
structure ChainUrls where
  apiURL : String
  browserURL : String
  deriving DecidableEq, Repr

/-- One entry of `etherscan.customChains`. -/
structure CustomChain where
  network : String
  chainId : Nat
  urls : ChainUrls
  deriving DecidableEq, Repr

/-- The `etherscan` object; `apiKey` is an object, kept as its key/value pairs. -/
structure EtherscanConfig where
  apiKey : List (String × String)
  customChains : List CustomChain
  deriving DecidableEq, Repr

/-- The `sourcify` object. -/
structure SourcifyConfig where
  enabled : Bool
  chainId : Nat
  deriving DecidableEq, Repr

/-- The exported configuration object; `networks` is an object, kept as its
key/value pairs in declaration order. -/
structure HardhatUserConfig where
  solidity : String
  networks : List (String × NetworkUserConfig)
  etherscan : EtherscanConfig
  sourcify : SourcifyConfig
  deriving DecidableEq, Repr

/-- `process.env.PRIVATE_KEY ? [process.env.PRIVATE_KEY] : []`. -/
def accounts (env : ProcessEnv) : List (Option String) :=
  if truthy (env "PRIVATE_KEY") then [env "PRIVATE_KEY"] else []

/-- The object assigned to `module.exports`. -/
def moduleExports (env : ProcessEnv) : HardhatUserConfig where
  solidity := "0.8.28"
  networks :=
    [("skale-nebula-testnet",
      { url := "https://testnet.skalenodes.com/v1/lanky-ill-funny-testnet"
        chainId := 37084624
        accounts := accounts env })]
  etherscan :=
    { apiKey := [("skale-nebula-testnet", "empty")]
      customChains :=
        [{ network := "skale-nebula-testnet"
           chainId := 37084624
           urls :=
             { apiURL := "https://internal.explorer.testnet.skalenodes.com:10031/api"
               browserURL := "https://internal.explorer.testnet.skalenodes.com" } }] }
  sourcify := { enabled := true, chainId := 37084624 }

/-! ## Profile resolution and verification routing over the configuration

The repository has no code that resolves a profile or routes a verification
request: the tool that loads `hardhat.config.js` does both. The two operations
are modelled from the spec, over the configuration object of the source. -/

/-- Modelled from the spec: the error of the Network Profile Registry for a name
that is absent from the registry. The sources contain no error type. -/
inductive ResolveError
  | ProfileNotFound
  deriving DecidableEq, Repr

/-- Modelled from the spec: `resolve(name)` of the Network Profile Registry, which
the sources do not contain. The registry is populated from the static
configuration, so a name is present exactly when it is one of the keys declared
in `networks`, and `resolve` returns the profile declared under that key; for a
name that is absent it fails with `ProfileNotFound`. No validity check is part
of this lookup: that a returned profile has a positive chain id and a non-empty
url has to come from the configuration. -/
def resolve (cfg : HardhatUserConfig) (name : String) : Except ResolveError NetworkUserConfig :=
  match cfg.networks.lookup name with
  | some profile => .ok profile
  | none => .error .ProfileNotFound

/-- Modelled from the spec: the three values of `kind` of a VerifierBinding. The
sources contain no such type. -/
inductive BindingKind
  | explorerApi
  | decentralizedRegistry
  | none
  deriving DecidableEq, Repr

/-- Modelled from the spec: a VerifierBinding, which the sources do not contain.
An explorer-API binding carries the declared entry of `etherscan.customChains`
(its `urls` are the endpoints), a decentralized-registry binding the chain id
`sourcify` is enabled for, and `none` is the binding of a chain with no backend. -/
inductive VerifierBinding
  | explorerApi (entry : CustomChain)
  | decentralizedRegistry (chainId : Nat)
  | none
  deriving DecidableEq, Repr

/-- The kind of a binding. -/
def VerifierBinding.kind : VerifierBinding → BindingKind
  | .explorerApi _ => .explorerApi
  | .decentralizedRegistry _ => .decentralizedRegistry
  | .none => .none

/-- The URL of the `submit` role: the `apiURL` of an explorer binding. -/
def VerifierBinding.submit : VerifierBinding → Option String
  | .explorerApi entry => some entry.urls.apiURL
  | _ => Option.none

/-- The URL of the `browse` role: the `browserURL` of an explorer binding. -/
def VerifierBinding.browse : VerifierBinding → Option String
  | .explorerApi entry => some entry.urls.browserURL
  | _ => Option.none

/-- Modelled from the spec: `route(chainId)` of the Verifier Router, which the
sources do not contain. It looks the chain id up among the declared entries of
`etherscan.customChains` and returns the first entry for that chain id as an
explorer-API binding; it always succeeds, and for a chain id with no declared
entry it returns the binding of kind `none`. -/
def route (cfg : HardhatUserConfig) (chainId : Nat) : VerifierBinding :=
  match cfg.etherscan.customChains.find? (fun c => c.chainId == chainId) with
  | some entry => .explorerApi entry
  | Option.none => .none

/-- Every verification backend the configuration declares for a chain id: one
explorer-API binding per matching entry of `etherscan.customChains`, followed by
the decentralized registry when `sourcify` is enabled for that chain id. -/
def bindingsFor (cfg : HardhatUserConfig) (chainId : Nat) : List VerifierBinding :=
  (cfg.etherscan.customChains.filter (fun c => c.chainId == chainId)).map .explorerApi
    ++ (if cfg.sourcify.enabled && cfg.sourcify.chainId == chainId
        then [.decentralizedRegistry cfg.sourcify.chainId] else [])

/-! ## scripts/deploy.js -/

/-- A thrown JavaScript error value: its `name` and `message`. -/
structure JsError where
  name : String
  message : String
  deriving DecidableEq, Repr

/-- The outcome of awaiting a call of an external collaborator in world `w`:
the value it resolves to or the error it rejects with, and the world after. -/
abbrev Call (W : Type) (α : Type) := W → Except JsError α × W

/-- A signer object; the script reads only its `address`. -/
structure Signer where
  address : String
  deriving DecidableEq, Repr

/-- The contract object `deploy` resolves to. -/
structure DeployedContract (W : Type) where
  waitForDeployment : Call W Unit
  getAddress : Call W String

/-- The factory object `getContractFactory` resolves to; `deploy` takes the
constructor arguments. -/
structure ContractFactory (W : Type) where
  deploy : List String → Call W (DeployedContract W)

/-- The object `hre.ethers`. -/
structure Ethers (W : Type) where
  getSigners : Call W (List Signer)
  getContractFactory : String → Call W (ContractFactory W)

/-- What a run does, in order. A collaborator call is recorded together with
whether it returned (`true`) or threw (`false`). -/
inductive Event
  | getSigners (returned : Bool)
  | consoleLog (label : String) (value : String)
  | getContractFactory (name : String) (returned : Bool)
  | deploy (args : List String) (returned : Bool)
  | waitForDeployment (returned : Bool)
  | getAddress (returned : Bool)
  | consoleError (error : JsError)
  | exit (code : Nat)
  deriving DecidableEq, Repr

/-- The error of evaluating `deployer.address` when `deployer` is `undefined`. -/
def undefinedAddressError : JsError :=
  { name := "TypeError"
    message := "Cannot read properties of undefined (reading 'address')" }

/-- The result of running `main`: whether it completed or threw, the events in
order, and the world it leaves. -/
structure Run (W : Type) where
  result : Except JsError Unit
  trace : List Event
  world : W

/-- The async function `main` of `scripts/deploy.js`. -/
def main {W : Type} (ethers : Ethers W) (w0 : W) : Run W :=
  -- const [deployer] = await hre.ethers.getSigners();
  match ethers.getSigners w0 with
  | (.error e, w1) => ⟨.error e, [.getSigners false], w1⟩
  | (.ok signers, w1) =>
    -- console.log("Deploying contracts with the account:", deployer.address);
    match signers.head? with
    | none => ⟨.error undefinedAddressError, [.getSigners true], w1⟩
    | some deployer =>
      let t1 : List Event :=
        [.getSigners true,
         .consoleLog "Deploying contracts with the account:" deployer.address]
      -- const GameScores = await hre.ethers.getContractFactory("GameScores");
      match ethers.getContractFactory "GameScores" w1 with
      | (.error e, w2) => ⟨.error e, t1 ++ [.getContractFactory "GameScores" false], w2⟩
      | (.ok GameScores, w2) =>
        let t2 := t1 ++ [.getContractFactory "GameScores" true]
        -- const gameScores = await GameScores.deploy(deployer.address);
        match GameScores.deploy [deployer.address] w2 with
        | (.error e, w3) => ⟨.error e, t2 ++ [.deploy [deployer.address] false], w3⟩
        | (.ok gameScores, w3) =>
          let t3 := t2 ++ [.deploy [deployer.address] true]
          -- await gameScores.waitForDeployment();
          match gameScores.waitForDeployment w3 with
          | (.error e, w4) => ⟨.error e, t3 ++ [.waitForDeployment false], w4⟩
          | (.ok (), w4) =>
            let t4 := t3 ++ [.waitForDeployment true]
            -- const address = await gameScores.getAddress();
            match gameScores.getAddress w4 with
            | (.error e, w5) => ⟨.error e, t4 ++ [.getAddress false], w5⟩
            | (.ok address, w5) =>
              -- console.log("GameScores deployed to:", address);
              ⟨.ok (), t4 ++ [.getAddress true,
                              .consoleLog "GameScores deployed to:" address], w5⟩

/-- The outcome of the whole script: the exit code passed to `process.exit`
and every event up to and including the exit. -/
structure Outcome (W : Type) where
  exitCode : Nat
  trace : List Event
  world : W

/-- The top level of the script:
`main().then(() => process.exit(0)).catch((error) => { console.error(error); process.exit(1); })`. -/
def script {W : Type} (ethers : Ethers W) (w0 : W) : Outcome W :=
  let run := main ethers w0
  match run.result with
  | .ok () => ⟨0, run.trace ++ [.exit 0], run.world⟩
  | .error error => ⟨1, run.trace ++ [.consoleError error, .exit 1], run.world⟩

/-! ## Vocabulary for stating properties of a run -/

/-- An event that submits a deployment or prepares one: a call of
`getContractFactory` or of `deploy`, whatever its outcome. -/
def Event.isDeploymentStep : Event → Bool
  | .getContractFactory _ _ => true
  | .deploy _ _ => true
  | _ => false

/-- A deploy event, whatever its arguments and outcome. -/
def Event.isDeploy : Event → Bool
  | .deploy _ _ => true
  | _ => false

/-- An event that reads or logs the deployed address: a call of `getAddress`,
or the log line "GameScores deployed to:". -/
def Event.readsDeployedAddress : Event → Bool
  | .getAddress _ => true
  | .consoleLog label _ => label == "GameScores deployed to:"
  | _ => false

/-- The events of a run up to and including the first log line, for a deployer
with address `addr`. -/
def preamble (addr : String) : List Event :=
  [.getSigners true, .consoleLog "Deploying contracts with the account:" addr]

/-- The seven ways a run of `main` can go: one for each step that can throw,
and the run that completes. -/
inductive MainShape : Except JsError Unit → List Event → Prop
  | getSignersThrew (e : JsError) :
      MainShape (.error e) [.getSigners false]
  | noSigner :
      MainShape (.error undefinedAddressError) [.getSigners true]
  | getContractFactoryThrew (addr : String) (e : JsError) :
      MainShape (.error e) (preamble addr ++ [.getContractFactory "GameScores" false])
  | deployThrew (addr : String) (e : JsError) :
      MainShape (.error e)
        (preamble addr ++ [.getContractFactory "GameScores" true, .deploy [addr] false])
  | waitForDeploymentThrew (addr : String) (e : JsError) :
      MainShape (.error e)
        (preamble addr ++ [.getContractFactory "GameScores" true, .deploy [addr] true,
          .waitForDeployment false])
  | getAddressThrew (addr : String) (e : JsError) :
      MainShape (.error e)
        (preamble addr ++ [.getContractFactory "GameScores" true, .deploy [addr] true,
          .waitForDeployment true, .getAddress false])
  | completed (addr address : String) :
      MainShape (.ok ())
        (preamble addr ++ [.getContractFactory "GameScores" true, .deploy [addr] true,
          .waitForDeployment true, .getAddress true,
          .consoleLog "GameScores deployed to:" address])

/-! ## Collaborators that record the calls they receive -/

/-- A call as the collaborator receiving it sees it: the operation and the
arguments it was given. -/
inductive CallRecord
  | getSigners
  | getContractFactory (name : String)
  | deploy (args : List String)
  | waitForDeployment
  | getAddress
  deriving DecidableEq, Repr

/-- The call `call`, made in a world that carries a log of the calls received so
far: it behaves as `call` does and appends `record` to the log. -/
def recordCall {W α : Type} (record : CallRecord) (call : Call W α) :
    Call (W × List CallRecord) α :=
  fun st => ((call st.1).1, ((call st.1).2, st.2 ++ [record]))

/-- The contract `c`, recording the calls it receives. -/
def recordingContract {W : Type} (c : DeployedContract W) :
    DeployedContract (W × List CallRecord) where
  waitForDeployment := recordCall .waitForDeployment c.waitForDeployment
  getAddress := recordCall .getAddress c.getAddress

/-- The factory `f`, recording each `deploy` it receives with the constructor
arguments it was given; the contract it returns records in turn. -/
def recordingFactory {W : Type} (f : ContractFactory W) :
    ContractFactory (W × List CallRecord) where
  deploy := fun args st =>
    match f.deploy args st.1 with
    | (.ok c, w) => (.ok (recordingContract c), (w, st.2 ++ [.deploy args]))
    | (.error e, w) => (.error e, (w, st.2 ++ [.deploy args]))

/-- The collaborators `ethers`, recording each call they receive with the
arguments they were given; the factories they return record in turn. -/
def recording {W : Type} (ethers : Ethers W) : Ethers (W × List CallRecord) where
  getSigners := recordCall .getSigners ethers.getSigners
  getContractFactory := fun name st =>
    match ethers.getContractFactory name st.1 with
    | (.ok f, w) => (.ok (recordingFactory f), (w, st.2 ++ [.getContractFactory name]))
    | (.error e, w) => (.error e, (w, st.2 ++ [.getContractFactory name]))

/-! ## Sample inputs -/

/-- An environment in which no variable is set. -/
def emptyEnv : ProcessEnv := fun _ => none

/-- An environment in which only `PRIVATE_KEY` is set, to `key`. -/
def envWithKey (key : String) : ProcessEnv :=
  fun name => if name = "PRIVATE_KEY" then some key else none

/-- An error some collaborator rejects with. -/
def rpcError : JsError := { name := "Error", message := "could not connect" }

/-- A sample contract object over a world that counts the submitted
transactions: `confirms` and `hasAddress` say whether `waitForDeployment` and
`getAddress` return. -/
def sampleContract (confirms hasAddress : Bool) : DeployedContract Nat where
  waitForDeployment := fun w => (if confirms then .ok () else .error rpcError, w)
  getAddress := fun w => (if hasAddress then .ok "0xC0FFEE" else .error rpcError, w)

/-- A sample factory: `deploy` submits one transaction, and returns when
`accepts`. -/
def sampleFactory (accepts confirms hasAddress : Bool) : ContractFactory Nat where
  deploy := fun _ w =>
    (if accepts then .ok (sampleContract confirms hasAddress) else .error rpcError, w + 1)

/-- A sample `hre.ethers` with the given signers; `compiled` says whether
`getContractFactory` returns. -/
def sampleEthers (signers : List Signer) (compiled accepts confirms hasAddress : Bool) :
    Ethers Nat where
  getSigners := fun w => (.ok signers, w)
  getContractFactory := fun _ w =>
    (if compiled then .ok (sampleFactory accepts confirms hasAddress) else .error rpcError, w)

/-! ## Theorems about the configuration -/

/-- C4. The one declared key of `networks` is "skale-nebula-testnet"; `resolve`
returns a profile exactly for that name and fails with `ProfileNotFound` exactly
for every other name; every declared profile, and so every profile `resolve`
returns, has a positive chain id and a non-empty url; the profile of
"skale-nebula-testnet" has chain id 37084624 and the SKALE testnet url. -/
theorem resolve_spec (env : ProcessEnv) (name : String) :
    (moduleExports env).networks.map Prod.fst = ["skale-nebula-testnet"]
      ∧ ((∃ p, resolve (moduleExports env) name = .ok p) ↔ name = "skale-nebula-testnet")
      ∧ (resolve (moduleExports env) name = .error .ProfileNotFound
          ↔ name ≠ "skale-nebula-testnet")
      ∧ (∀ kv ∈ (moduleExports env).networks, 0 < kv.2.chainId ∧ kv.2.url ≠ "")
      ∧ (∀ p, resolve (moduleExports env) name = .ok p → 0 < p.chainId ∧ p.url ≠ "")
      ∧ resolve (moduleExports env) "skale-nebula-testnet"
          = .ok { url := "https://testnet.skalenodes.com/v1/lanky-ill-funny-testnet"
                  chainId := 37084624
                  accounts := accounts env } := by
  by_cases h : name = "skale-nebula-testnet"
  · subst h
    simp [resolve, moduleExports, List.lookup]
  · have hb : (name == "skale-nebula-testnet") = false := by simpa using h
    simp [resolve, moduleExports, List.lookup, hb, h]

/-- C4, at concrete inputs: the declared name resolves, to a profile with a
positive chain id, and an undeclared one does not. -/
theorem resolve_spec_witness :
    (∃ p, resolve (moduleExports emptyEnv) "skale-nebula-testnet" = .ok p)
      ∧ resolve (moduleExports emptyEnv) "mainnet" = .error .ProfileNotFound
      ∧ resolve (moduleExports emptyEnv) "toString" = .error .ProfileNotFound :=
  ⟨(resolve_spec emptyEnv "skale-nebula-testnet").2.1.2 rfl,
   (resolve_spec emptyEnv "mainnet").2.2.1.2 (by decide),
   (resolve_spec emptyEnv "toString").2.2.1.2 (by decide)⟩

/-- C5. For the declared custom chain 37084624, `route` returns the entry of
`etherscan.customChains` itself, unmodified: an explorer-API binding for network
"skale-nebula-testnet" with both endpoint roles present, `submit` being the
declared `apiURL` and `browse` the declared `browserURL`. -/
theorem route_declared_chain (env : ProcessEnv) :
    ∃ entry, entry ∈ (moduleExports env).etherscan.customChains
      ∧ route (moduleExports env) 37084624 = .explorerApi entry
      ∧ (route (moduleExports env) 37084624).kind = .explorerApi
      ∧ entry.network = "skale-nebula-testnet"
      ∧ entry.chainId = 37084624
      ∧ (route (moduleExports env) 37084624).submit
          = some "https://internal.explorer.testnet.skalenodes.com:10031/api"
      ∧ (route (moduleExports env) 37084624).browse
          = some "https://internal.explorer.testnet.skalenodes.com" :=
  ⟨{ network := "skale-nebula-testnet"
     chainId := 37084624
     urls := { apiURL := "https://internal.explorer.testnet.skalenodes.com:10031/api"
               browserURL := "https://internal.explorer.testnet.skalenodes.com" } },
   by simp [moduleExports], rfl, rfl, rfl, rfl, rfl, rfl⟩

/-- C6. The chain ids with no declared binding, neither among
`etherscan.customChains` nor through `sourcify`, are exactly those other than
37084624; `route` returns a binding for every chain id, and the binding is of
kind `none` exactly for the chain ids other than 37084624, for which it is the
binding `none` itself. -/
theorem route_undeclared_chain (env : ProcessEnv) (chainId : Nat) :
    (bindingsFor (moduleExports env) chainId = [] ↔ chainId ≠ 37084624)
      ∧ ((moduleExports env).etherscan.customChains.all (fun c => c.chainId != chainId)
          = true ↔ chainId ≠ 37084624)
      ∧ ((route (moduleExports env) chainId).kind = .none ↔ chainId ≠ 37084624)
      ∧ (chainId ≠ 37084624 → route (moduleExports env) chainId = .none) := by
  by_cases h : chainId = 37084624
  · subst h
    simp [bindingsFor, route, moduleExports, VerifierBinding.kind]
  · have hb : (37084624 == chainId) = false := by
      simpa using fun h2 : 37084624 = chainId => h h2.symm
    have hne : ¬ (37084624 = chainId) := fun h2 => h h2.symm
    simp [bindingsFor, route, moduleExports, List.find?, List.filter, hb, hne, h,
      VerifierBinding.kind]

/-- C6, at chain id 1 (undeclared). -/
theorem route_undeclared_chain_witness :
    bindingsFor (moduleExports emptyEnv) 1 = []
      ∧ route (moduleExports emptyEnv) 1 = .none
      ∧ (route (moduleExports emptyEnv) 1).kind = .none :=
  ⟨(route_undeclared_chain emptyEnv 1).1.2 (by decide),
   (route_undeclared_chain emptyEnv 1).2.2.2 (by decide),
   (route_undeclared_chain emptyEnv 1).2.2.1.2 (by decide)⟩

/-- C7 as stated fails: chain id 37084624 is bound to two verification
backends, the explorer API declared in `etherscan.customChains` and the
decentralized registry enabled by `sourcify`. -/
theorem chain_bound_to_two_backends :
    (bindingsFor (moduleExports emptyEnv) 37084624).map VerifierBinding.kind
        = [.explorerApi, .decentralizedRegistry]
      ∧ ¬ (bindingsFor (moduleExports emptyEnv) 37084624).length ≤ 1 := by
  constructor
  · rfl
  · decide

/-- C7, amended. No chain id occurs twice in `etherscan.customChains`, and no
chain id has two bindings of the same kind; chain id 37084624 has exactly two
bindings, one explorer-API binding (the declared custom chain) and the
decentralized registry, and every other chain id has none. -/
theorem bindings_per_chain (env : ProcessEnv) (chainId : Nat) :
    ((moduleExports env).etherscan.customChains.map CustomChain.chainId).Nodup
      ∧ ((bindingsFor (moduleExports env) chainId).map VerifierBinding.kind).Nodup
      ∧ bindingsFor (moduleExports env) chainId
          = (if chainId = 37084624 then
              [route (moduleExports env) 37084624, .decentralizedRegistry 37084624]
             else []) := by
  by_cases h : chainId = 37084624
  · subst h
    simp [bindingsFor, route, moduleExports, VerifierBinding.kind]
  · have hb : (37084624 == chainId) = false := by
      simpa using fun h2 : 37084624 = chainId => h h2.symm
    have hne : ¬ (37084624 = chainId) := fun h2 => h h2.symm
    simp [bindingsFor, moduleExports, List.filter, hb, hne, h]

/-- C9. The accounts of the 'skale-nebula-testnet' profile are `accounts env`,
which depends on `PRIVATE_KEY` alone: it is `[k]` when `PRIVATE_KEY` is a
non-empty string `k`, and empty when `PRIVATE_KEY` is unset or the empty string;
so it has at most one element and contains neither `undefined` nor the empty
string. -/
theorem accounts_spec (env : ProcessEnv) :
    (resolve (moduleExports env) "skale-nebula-testnet").map NetworkUserConfig.accounts
        = .ok (accounts env)
      ∧ (∀ k, env "PRIVATE_KEY" = some k → k ≠ "" → accounts env = [some k])
      ∧ (env "PRIVATE_KEY" = none ∨ env "PRIVATE_KEY" = some "" → accounts env = [])
      ∧ (∀ other : ProcessEnv, other "PRIVATE_KEY" = env "PRIVATE_KEY"
          → accounts other = accounts env)
      ∧ (accounts env).length ≤ 1
      ∧ none ∉ accounts env
      ∧ some "" ∉ accounts env := by
  refine ⟨rfl, ?_, ?_, ?_, ?_, ?_, ?_⟩
  · intro k hk hne
    simp [accounts, truthy, hk, hne]
  · rintro (hk | hk) <;> simp [accounts, truthy, hk]
  · intro other ho
    simp [accounts, ho]
  · unfold accounts
    split <;> simp
  · cases hk : env "PRIVATE_KEY" <;> simp [accounts, truthy, hk]
  · cases hk : env "PRIVATE_KEY" with
    | none => simp [accounts, truthy, hk]
    | some k =>
      by_cases hne : k = "" <;> simp [accounts, truthy, hk, hne]
      exact fun h2 => hne h2.symm

/-- C9, at concrete environments: a set key, an unset key and an empty key. -/
theorem accounts_spec_witness :
    accounts (envWithKey "0xabc") = [some "0xabc"]
      ∧ accounts emptyEnv = []
      ∧ accounts (envWithKey "") = [] :=
  ⟨(accounts_spec (envWithKey "0xabc")).2.1 "0xabc" (by simp [envWithKey]) (by decide),
   (accounts_spec emptyEnv).2.2.1 (Or.inl rfl),
   (accounts_spec (envWithKey "")).2.2.1 (Or.inr (by simp [envWithKey]))⟩

/-- C10. Every entry of `etherscan.customChains` names a key of `networks` whose
profile has the same chain id, and has an entry in `etherscan.apiKey`; the
`sourcify` chain id is the chain id of a declared network; the chain id of the
network, of the custom chain and of `sourcify` is 37084624 in all three places. -/
theorem config_cross_consistent (env : ProcessEnv) :
    (∀ c ∈ (moduleExports env).etherscan.customChains,
        (∃ p, (moduleExports env).networks.lookup c.network = some p
            ∧ p.chainId = c.chainId)
          ∧ ((moduleExports env).etherscan.apiKey.lookup c.network).isSome = true)
      ∧ (∃ name p, (moduleExports env).networks.lookup name = some p
            ∧ p.chainId = (moduleExports env).sourcify.chainId)
      ∧ (moduleExports env).networks.map (fun kv => kv.2.chainId) = [37084624]
      ∧ (moduleExports env).etherscan.customChains.map CustomChain.chainId = [37084624]
      ∧ (moduleExports env).sourcify.chainId = 37084624 := by
  refine ⟨?_, ⟨"skale-nebula-testnet", _, rfl, rfl⟩, rfl, rfl, rfl⟩
  intro c hc
  simp only [moduleExports, List.mem_singleton] at hc
  subst hc
  exact ⟨⟨_, rfl, rfl⟩, rfl⟩

/-! ## Theorems about the deploy script -/

/-- Every run of `main` has one of the seven shapes. -/
theorem main_shape {W : Type} (ethers : Ethers W) (w0 : W) :
    MainShape (main ethers w0).result (main ethers w0).trace := by
  unfold main
  split
  · exact .getSignersThrew _
  · split
    · exact .noSigner
    · split
      · exact .getContractFactoryThrew _ _
      · split
        · exact .deployThrew _ _
        · split
          · exact .waitForDeploymentThrew _ _
          · split
            · exact .getAddressThrew _ _
            · exact .completed _ _

/-- In a run of one of the seven shapes, every event that reads or logs the
deployed address comes after a returned `waitForDeployment`. -/
theorem MainShape.read_after_confirmation {r : Except JsError Unit} {t : List Event}
    (h : MainShape r t) (i : Nat) (ev : Event) (hi : t[i]? = some ev)
    (hread : ev.readsDeployedAddress = true) :
    Event.waitForDeployment true ∈ t.take i := by
  cases h <;>
    rcases i with _ | _ | _ | _ | _ | _ | _ | i <;>
    simp [preamble] at hi <;>
    subst hi <;>
    first
      | (simp [Event.readsDeployedAddress] at hread; done)
      | simp [preamble]

/-- In a run of one of the seven shapes in which `deploy` or `waitForDeployment`
threw, no event reads or logs the deployed address. -/
theorem MainShape.no_read_without_confirmation {r : Except JsError Unit} {t : List Event}
    (h : MainShape r t)
    (hthrew : (∃ args, Event.deploy args false ∈ t) ∨ Event.waitForDeployment false ∈ t)
    (ev : Event) (hev : ev ∈ t) : ev.readsDeployedAddress = false := by
  cases h <;> simp [preamble] at hthrew <;> simp [preamble] at hev <;>
    rcases hev with rfl | rfl | rfl | rfl | rfl <;>
    simp [Event.readsDeployedAddress]

/-- C1. The exit code is 0 exactly when `main` completes and 1 exactly when it
throws; the last event of the script is the exit with that code; whichever step
throws (`getSigners`, reading `deployer.address` of a missing signer,
`getContractFactory`, `deploy`, `waitForDeployment`, `getAddress`) the exit code
is 1, and when every step returns it is 0. -/
theorem exit_code_spec {W : Type} (ethers : Ethers W) (w0 : W) :
    ((script ethers w0).exitCode = 0 ↔ (main ethers w0).result = .ok ())
      ∧ ((script ethers w0).exitCode = 1 ↔ ∃ e, (main ethers w0).result = .error e)
      ∧ (script ethers w0).trace.getLast? = some (.exit (script ethers w0).exitCode)
      ∧ (∀ e w1, ethers.getSigners w0 = (.error e, w1) → (script ethers w0).exitCode = 1)
      ∧ (∀ w1, ethers.getSigners w0 = (.ok [], w1) → (script ethers w0).exitCode = 1)
      ∧ (∀ s rest w1, ethers.getSigners w0 = (.ok (s :: rest), w1) →
          (∀ e w2, ethers.getContractFactory "GameScores" w1 = (.error e, w2) →
            (script ethers w0).exitCode = 1)
          ∧ (∀ f w2, ethers.getContractFactory "GameScores" w1 = (.ok f, w2) →
              (∀ e w3, f.deploy [s.address] w2 = (.error e, w3) →
                (script ethers w0).exitCode = 1)
              ∧ (∀ c w3, f.deploy [s.address] w2 = (.ok c, w3) →
                  (∀ e w4, c.waitForDeployment w3 = (.error e, w4) →
                    (script ethers w0).exitCode = 1)
                  ∧ (∀ w4, c.waitForDeployment w3 = (.ok (), w4) →
                      (∀ e w5, c.getAddress w4 = (.error e, w5) →
                        (script ethers w0).exitCode = 1)
                      ∧ (∀ a w5, c.getAddress w4 = (.ok a, w5) →
                        (script ethers w0).exitCode = 0))))) := by
  refine ⟨?_, ?_, ?_, ?_, ?_, ?_⟩
  · cases hr : (main ethers w0).result <;> simp [script, hr]
  · cases hr : (main ethers w0).result <;> simp [script, hr]
  · cases hr : (main ethers w0).result <;> simp [script, hr]
  · intro e w1 h1
    simp [script, main, h1]
  · intro w1 h1
    simp [script, main, h1]
  · intro s rest w1 h1
    refine ⟨fun e w2 h2 => by simp [script, main, h1, h2], fun f w2 h2 => ?_⟩
    refine ⟨fun e w3 h3 => by simp [script, main, h1, h2, h3], fun c w3 h3 => ?_⟩
    refine ⟨fun e w4 h4 => by simp [script, main, h1, h2, h3, h4], fun w4 h4 => ?_⟩
    exact ⟨fun e w5 h5 => by simp [script, main, h1, h2, h3, h4, h5],
      fun a w5 h5 => by simp [script, main, h1, h2, h3, h4, h5]⟩

/-- C1, at concrete runs: a run in which `waitForDeployment` throws exits with 1,
a run in which every step returns exits with 0. -/
theorem exit_code_spec_witness :
    (script (sampleEthers [⟨"0xA11CE"⟩] true true false true) 0).exitCode = 1
      ∧ (script (sampleEthers [⟨"0xA11CE"⟩] true true true true) 0).exitCode = 0 :=
  ⟨(((((exit_code_spec (sampleEthers [⟨"0xA11CE"⟩] true true false true) 0).2.2.2.2.2
        ⟨"0xA11CE"⟩ [] 0 rfl).2 _ 0 rfl).2 _ 1 rfl).1 rpcError 1 rfl),
   (((((exit_code_spec (sampleEthers [⟨"0xA11CE"⟩] true true true true) 0).2.2.2.2.2
        ⟨"0xA11CE"⟩ [] 0 rfl).2 _ 0 rfl).2 _ 1 rfl).2 1 rfl).2 "0xC0FFEE" 1 rfl⟩

/-- C2 as stated fails: with no signer the run does fail, but the error thrown is
the `TypeError` of reading `address` of `undefined`, not an error named
`NoSigningCredential`. -/
theorem no_signer_error_is_type_error :
    (main (sampleEthers [] true true true true) 0).result
        = .error { name := "TypeError"
                   message := "Cannot read properties of undefined (reading 'address')" }
      ∧ ¬ ∃ e, (main (sampleEthers [] true true true true) 0).result = .error e
            ∧ e.name = "NoSigningCredential" := by
  refine ⟨rfl, ?_⟩
  rintro ⟨e, he, hn⟩
  have h : e = undefinedAddressError := by
    have h2 : (main (sampleEthers [] true true true true) 0).result
        = .error undefinedAddressError := rfl
    rw [h2] at he
    exact (Except.error.inj he).symm
  subst h
  revert hn
  decide

/-- C2, amended. When `getSigners` yields an empty list, `main` throws the
`TypeError` of reading `address` of `undefined` right after `getSigners`:
neither `getContractFactory` nor `deploy` is called, the world is left as
`getSigners` left it, and the script logs the error and exits with code 1. -/
theorem no_signer_no_deployment {W : Type} (ethers : Ethers W) (w0 w1 : W)
    (hs : ethers.getSigners w0 = (.ok [], w1)) :
    (main ethers w0).result = .error undefinedAddressError
      ∧ undefinedAddressError.name = "TypeError"
      ∧ (main ethers w0).trace = [.getSigners true]
      ∧ (main ethers w0).world = w1
      ∧ (script ethers w0).trace
          = [.getSigners true, .consoleError undefinedAddressError, .exit 1]
      ∧ (∀ ev ∈ (script ethers w0).trace, ev.isDeploymentStep = false)
      ∧ (script ethers w0).exitCode = 1
      ∧ (script ethers w0).world = w1 := by
  have hm : main ethers w0 = ⟨.error undefinedAddressError, [.getSigners true], w1⟩ := by
    simp [main, hs]
  have ht : (script ethers w0).trace
      = [.getSigners true, .consoleError undefinedAddressError, .exit 1] := by
    simp [script, hm]
  refine ⟨by rw [hm], rfl, by rw [hm], by rw [hm], ht, ?_, by simp [script, hm],
    by simp [script, hm]⟩
  intro ev hev
  rw [ht] at hev
  simp only [List.mem_cons, List.mem_singleton, List.not_mem_nil, or_false] at hev
  rcases hev with h | h | h <;> subst h <;> rfl

/-- C2 amended, at a concrete run with no signer: no transaction is counted. -/
theorem no_signer_no_deployment_witness :
    (main (sampleEthers [] true true true true) 0).trace = [.getSigners true]
      ∧ (script (sampleEthers [] true true true true) 0).exitCode = 1
      ∧ (script (sampleEthers [] true true true true) 0).world = 0 :=
  ⟨(no_signer_no_deployment (sampleEthers [] true true true true) 0 0 rfl).2.2.1,
   (no_signer_no_deployment (sampleEthers [] true true true true) 0 0 rfl).2.2.2.2.2.2.1,
   (no_signer_no_deployment (sampleEthers [] true true true true) 0 0 rfl).2.2.2.2.2.2.2⟩

/-- C3. A run in which `getSigners` returns a non-empty list and no collaborator
call throws (the factory request for "GameScores", the deployment with the first
signer's address, the wait and the address read all return) completes, leaves the
world the last call left, and does exactly this, in order: logs the first
signer's address as the deploying account, requests the factory named
"GameScores", calls `deploy` once with the one-element argument list holding that
same address, waits for the deployment, reads the address and logs it. The
collaborators themselves receive exactly these five calls with these arguments. -/
theorem single_deployment {W : Type} (ethers : Ethers W) (w0 w1 w2 w3 w4 w5 : W)
    (s : Signer) (rest : List Signer) (f : ContractFactory W) (c : DeployedContract W)
    (address : String)
    (hs : ethers.getSigners w0 = (.ok (s :: rest), w1))
    (hf : ethers.getContractFactory "GameScores" w1 = (.ok f, w2))
    (hd : f.deploy [s.address] w2 = (.ok c, w3))
    (hw : c.waitForDeployment w3 = (.ok (), w4))
    (ha : c.getAddress w4 = (.ok address, w5)) :
    (main ethers w0).result = .ok ()
      ∧ (main ethers w0).world = w5
      ∧ (main ethers w0).trace =
          [.getSigners true,
           .consoleLog "Deploying contracts with the account:" s.address,
           .getContractFactory "GameScores" true,
           .deploy [s.address] true,
           .waitForDeployment true,
           .getAddress true,
           .consoleLog "GameScores deployed to:" address]
      ∧ (main ethers w0).trace.filter Event.isDeploy = [.deploy [s.address] true]
      ∧ (main (recording ethers) (w0, [])).result = .ok ()
      ∧ (main (recording ethers) (w0, [])).world
          = (w5, [.getSigners, .getContractFactory "GameScores", .deploy [s.address],
                  .waitForDeployment, .getAddress]) := by
  have hm : main ethers w0 = ⟨.ok (),
      [.getSigners true,
       .consoleLog "Deploying contracts with the account:" s.address,
       .getContractFactory "GameScores" true,
       .deploy [s.address] true,
       .waitForDeployment true,
       .getAddress true,
       .consoleLog "GameScores deployed to:" address], w5⟩ := by
    simp [main, hs, hf, hd, hw, ha]
  refine ⟨by rw [hm], by rw [hm], by rw [hm], ?_, ?_, ?_⟩
  · rw [hm]
    simp [List.filter, Event.isDeploy]
  · simp [main, recording, recordingFactory, recordingContract, recordCall,
      hs, hf, hd, hw, ha]
  · simp [main, recording, recordingFactory, recordingContract, recordCall,
      hs, hf, hd, hw, ha]

/-- C3, at a concrete run with two signers: the first one is the owner, the
collaborators receive one `deploy`, with the owner's address, and one
transaction is submitted. -/
theorem single_deployment_witness :
    (main (sampleEthers [⟨"0xA11CE"⟩, ⟨"0xB0B"⟩] true true true true) 0).world = 1
      ∧ (main (recording (sampleEthers [⟨"0xA11CE"⟩, ⟨"0xB0B"⟩] true true true true))
            (0, [])).world
          = (1, [.getSigners, .getContractFactory "GameScores", .deploy ["0xA11CE"],
                 .waitForDeployment, .getAddress]) :=
  ⟨(single_deployment (sampleEthers [⟨"0xA11CE"⟩, ⟨"0xB0B"⟩] true true true true)
      0 0 0 1 1 1 ⟨"0xA11CE"⟩ [⟨"0xB0B"⟩] (sampleFactory true true true)
      (sampleContract true true) "0xC0FFEE" rfl rfl rfl rfl rfl).2.1,
   (single_deployment (sampleEthers [⟨"0xA11CE"⟩, ⟨"0xB0B"⟩] true true true true)
      0 0 0 1 1 1 ⟨"0xA11CE"⟩ [⟨"0xB0B"⟩] (sampleFactory true true true)
      (sampleContract true true) "0xC0FFEE" rfl rfl rfl rfl rfl).2.2.2.2.2⟩

/-- C8. In every run of `main`, an event that reads or logs the deployed address
(a call of `getAddress`, the log line "GameScores deployed to:") is preceded by
a `waitForDeployment` that returned; and when `deploy` or `waitForDeployment`
throws, no event of the run reads or logs the deployed address. -/
theorem address_only_after_confirmation {W : Type} (ethers : Ethers W) (w0 : W) :
    (∀ i ev, (main ethers w0).trace[i]? = some ev → ev.readsDeployedAddress = true →
        Event.waitForDeployment true ∈ (main ethers w0).trace.take i)
      ∧ ((∃ args, Event.deploy args false ∈ (main ethers w0).trace)
            ∨ Event.waitForDeployment false ∈ (main ethers w0).trace →
          ∀ ev ∈ (main ethers w0).trace, ev.readsDeployedAddress = false)
      ∧ (∀ s rest w1 f w2, ethers.getSigners w0 = (.ok (s :: rest), w1) →
          ethers.getContractFactory "GameScores" w1 = (.ok f, w2) →
          (∀ e w3, f.deploy [s.address] w2 = (.error e, w3) →
            ∀ ev ∈ (main ethers w0).trace, ev.readsDeployedAddress = false)
          ∧ (∀ c w3 e w4, f.deploy [s.address] w2 = (.ok c, w3) →
              c.waitForDeployment w3 = (.error e, w4) →
              ∀ ev ∈ (main ethers w0).trace, ev.readsDeployedAddress = false)) := by
  refine ⟨fun i ev hi hread => (main_shape ethers w0).read_after_confirmation i ev hi hread,
    fun hthrew ev hev => (main_shape ethers w0).no_read_without_confirmation hthrew ev hev,
    fun s rest w1 f w2 h1 h2 => ⟨fun e w3 h3 => ?_, fun c w3 e w4 h3 h4 => ?_⟩⟩
  · refine (main_shape ethers w0).no_read_without_confirmation (Or.inl ⟨[s.address], ?_⟩)
    simp [main, h1, h2, h3]
  · refine (main_shape ethers w0).no_read_without_confirmation (Or.inr ?_)
    simp [main, h1, h2, h3, h4]

/-- C8, at concrete runs: in a completed run the deployed address is read (event
5) and logged (event 6) after the confirmation; in a run whose
`waitForDeployment` throws nothing reads or logs it. -/
theorem address_only_after_confirmation_witness :
    Event.waitForDeployment true
        ∈ (main (sampleEthers [⟨"0xA11CE"⟩] true true true true) 0).trace.take 5
      ∧ Event.waitForDeployment true
        ∈ (main (sampleEthers [⟨"0xA11CE"⟩] true true true true) 0).trace.take 6
      ∧ ∀ ev ∈ (main (sampleEthers [⟨"0xA11CE"⟩] true true false true) 0).trace,
          ev.readsDeployedAddress = false :=
  ⟨(address_only_after_confirmation (sampleEthers [⟨"0xA11CE"⟩] true true true true) 0).1
      5 (.getAddress true) rfl rfl,
   (address_only_after_confirmation (sampleEthers [⟨"0xA11CE"⟩] true true true true) 0).1
      6 (.consoleLog "GameScores deployed to:" "0xC0FFEE") rfl rfl,
   (address_only_after_confirmation (sampleEthers [⟨"0xA11CE"⟩] true true false true) 0).2.1
      (Or.inr (by decide))⟩

end GameScores
